import Mathlib

/-!
Verification of the EMS-ESP shower monitor (`src/shower.cpp`).

This file gives a shallow embedding of the `Shower` class of
`src/shower.cpp` and proves properties of its tick logic.

Modelling notes.
* The per-tick entry point `Shower::loop` becomes a pure function
  `Shower.loop : ShowerState → Bool → Nat → Nat → ShowerState × List Event`
  taking the current state, the tap-sensor reading (`EMSESP::tap_water_active()`),
  the monotonic uint32 uptime in ms (`uuid::get_uptime()`), and the wall clock
  in epoch seconds (`time(nullptr)`); it returns the new state and the list of
  externally observable effects, in emission order.
* The `uint32_t` timestamp arithmetic of the source (`time_now - timer_start_`
  and friends) is embedded as `sub32`, subtraction modulo `2 ^ 32` on `Nat`.
* Observable effects are the MQTT publication of `shower_active` (the
  state-change event, `Event.stateChanged`), the MQTT publication of the
  `shower_data` summary document (`Event.sessionSummary`, carrying the
  whole-second duration and the optional wall-clock stamp that the source
  formats with `strftime` — modelled here as the raw epoch seconds), and the
  actuator command `Command::call(BOILER, "wwtapactivated", b)`
  (`Event.actuator`).  Home-Assistant discovery-document publication and log
  lines are out of scope per the design document and are not modelled.
* The `coldshot` command callback registered in `Shower::start` becomes
  `Shower.coldshot_cmd`, returning the new state, the `message` string written
  into the JSON reply, and its (empty) actuator-effect list.
* The `static bool force_coldshot` global and the `static bool
  old_shower_state_` local of `set_shower_state` are fields of the state
  record, mirroring their cross-call persistence.
-/

/-- Modelled from the spec: `shower.h` (not among the given sources) defines
`SHOWER_MIN_DURATION`; the design document gives it as about 180 s, in ms. -/
def SHOWER_MIN_DURATION : Nat := 180000

/-- Modelled from the spec: `shower.h` (not among the given sources) defines
`SHOWER_PAUSE_TIME` (the pause tolerance); the design document gives it as
about 15 s, in ms. -/
def SHOWER_PAUSE_TIME : Nat := 15000

/-- Modelled from the spec: `shower.h` (not among the given sources) defines
`SHOWER_OFFSET_TIME` (the settle offset); the design document gives it as
about 5 s, in ms. -/
def SHOWER_OFFSET_TIME : Nat := 5000

/-- Width of the `uint32_t` millisecond uptime counter used by the source. -/
def UINT32_MOD : Nat := 4294967296

/-- Unsigned 32-bit subtraction `a - b` exactly as the C++ source computes it
on `uint32_t` operands: wraparound-safe, modulo `2 ^ 32`. -/
def sub32 (a b : Nat) : Nat := (a + (UINT32_MOD - b % UINT32_MOD)) % UINT32_MOD

/-- Externally observable effects of a tick, in emission order. -/
inductive Event where
  /-- publication of the `shower_active` boolean (MQTT topic `shower_active`) -/
  | stateChanged (active : Bool)
  /-- publication of the `shower_data` summary document: duration in whole
  seconds and, when the wall clock passed the post-epoch sanity check, the
  wall-clock stamp -/
  | sessionSummary (duration_seconds : Nat) (wall : Option Nat)
  /-- the actuator command `wwtapactivated = enabled` -/
  | actuator (enabled : Bool)
  deriving DecidableEq, Repr

/-- The mutable state of the `Shower` instance: its configuration fields read
in `Shower::start`, its session fields, the file-scope `force_coldshot`
global, and the function-static `old_shower_state_` of `set_shower_state`. -/
structure ShowerState where
  shower_timer_ : Bool
  shower_alert_ : Bool
  shower_alert_trigger_ : Nat
  shower_alert_coldshot_ : Nat
  timer_start_ : Nat
  timer_pause_ : Nat
  alert_timer_start_ : Nat
  duration_ : Nat
  shower_state_ : Bool
  doing_cold_shot_ : Bool
  force_coldshot : Bool
  old_shower_state_ : Bool
  deriving DecidableEq, Repr

namespace Shower

/-- Embedding of `Shower::set_shower_state(bool state, bool force)`: store the
state, and publish `shower_active` only when the stored state differs from the
remembered one or `force` is set. -/
def set_shower_state (s : ShowerState) (state : Bool) (force : Bool) :
    ShowerState × List Event :=
  let s1 : ShowerState := { s with shower_state_ := state }
  if s1.shower_state_ = s1.old_shower_state_ ∧ force = false then
    (s1, [])
  else
    ({ s1 with old_shower_state_ := s1.shower_state_ },
     [Event.stateChanged s1.shower_state_])

/-- Embedding of `Shower::shower_alert_start()`: command the actuator to cut
hot water, mark the cold shot as running, clear the force flag, and start the
cold-shot timer at the current uptime. -/
def shower_alert_start (s : ShowerState) (time_now : Nat) :
    ShowerState × List Event :=
  ({ s with doing_cold_shot_ := true, force_coldshot := false,
            alert_timer_start_ := time_now },
   [Event.actuator false])

/-- Embedding of `Shower::shower_alert_stop()`: if a cold shot is running,
command the actuator to restore hot water and clear the cold-shot and force
flags. -/
def shower_alert_stop (s : ShowerState) : ShowerState × List Event :=
  if s.doing_cold_shot_ = true then
    ({ s with doing_cold_shot_ := false, force_coldshot := false },
     [Event.actuator true])
  else
    (s, [])

/-- Embedding of the `coldshot` command callback registered in
`Shower::start`: when a shower is recognized, reply `OK` and set the one-shot
force flag; otherwise reply with the failure message and clear the flag.  The
callback issues no actuator command, hence the empty effect list. -/
def coldshot_cmd (s : ShowerState) : ShowerState × String × List Event :=
  if s.shower_state_ = true then
    ({ s with force_coldshot := true }, "OK", [])
  else
    ({ s with force_coldshot := false }, "Coldshot failed. Shower not active", [])

/-- Embedding of `Shower::loop()`, one tick.  Arguments: current state, the
tap-sensor reading, the uint32 monotonic uptime in ms, and the wall clock in
epoch seconds.  Returns the new state and the emitted events in order. -/
def loop (s : ShowerState) (tap : Bool) (time_now : Nat) (wall : Nat) :
    ShowerState × List Event :=
  if s.shower_timer_ = false then
    (s, [])
  else if s.doing_cold_shot_ = false then
    if tap = true then
      if s.timer_start_ = 0 then
        ({ s with timer_start_ := time_now, timer_pause_ := 0,
                  doing_cold_shot_ := false, duration_ := 0,
                  shower_state_ := false }, [])
      else if s.shower_state_ = false ∧
              SHOWER_MIN_DURATION < sub32 time_now s.timer_start_ then
        set_shower_state s true false
      else if (s.shower_alert_ = true ∧
               s.shower_alert_trigger_ < sub32 time_now s.timer_start_) ∨
              s.force_coldshot = true then
        shower_alert_start s time_now
      else
        (s, [])
    else
      let s1 : ShowerState :=
        if s.timer_start_ ≠ 0 ∧ s.timer_pause_ = 0 then
          { s with timer_pause_ := time_now }
        else s
      if s1.timer_pause_ ≠ 0 ∧
         SHOWER_PAUSE_TIME < sub32 time_now s1.timer_pause_ then
        let span := sub32 s1.timer_pause_ s1.timer_start_
        let s2 : ShowerState :=
          if SHOWER_OFFSET_TIME < span then
            { s1 with duration_ := span - SHOWER_OFFSET_TIME }
          else s1
        let evs : List Event :=
          if SHOWER_OFFSET_TIME < span ∧
             SHOWER_MIN_DURATION < span - SHOWER_OFFSET_TIME then
            [Event.sessionSummary ((span - SHOWER_OFFSET_TIME) / 1000)
              (if 1576800000 < wall then some wall else none)]
          else []
        let s3 : ShowerState :=
          { s2 with timer_start_ := 0, timer_pause_ := 0,
                    doing_cold_shot_ := false, alert_timer_start_ := 0 }
        let r := set_shower_state s3 false false
        (r.1, evs ++ r.2)
      else
        (s1, [])
  else
    if s.shower_alert_coldshot_ < sub32 time_now s.alert_timer_start_ then
      shower_alert_stop s
    else
      (s, [])

end Shower

/-- One scheduler tick: the sampled uptime, the tap-sensor reading, and the
wall clock at that instant. -/
structure Tick where
  time : Nat
  tap : Bool
  wall : Nat
  deriving DecidableEq, Repr

/-- Run `Shower.loop` over a list of ticks, collecting all emitted events in
order. -/
def runLoop : ShowerState → List Tick → ShowerState × List Event
  | s, [] => (s, [])
  | s, t :: rest =>
    let r := Shower.loop s t.tap t.time t.wall
    let r2 := runLoop r.1 rest
    (r2.1, r.2 ++ r2.2)

/-- An externally driven action: either a scheduler tick or an invocation of
the `coldshot` command by the command dispatcher. -/
inductive Act where
  | tick (t : Tick)
  | coldshotRequest
  deriving Repr

/-- Run a mixed sequence of ticks and `coldshot` command invocations. -/
def runActs : ShowerState → List Act → ShowerState × List Event
  | s, [] => (s, [])
  | s, Act.tick t :: rest =>
    let r := Shower.loop s t.tap t.time t.wall
    let r2 := runActs r.1 rest
    (r2.1, r.2 ++ r2.2)
  | s, Act.coldshotRequest :: rest =>
    let r := Shower.coldshot_cmd s
    let r2 := runActs r.1 rest
    (r2.1, r.2.2 ++ r2.2)

/-- The state right after `Shower::start` ran with the given configuration:
all session fields at their sentinel/false values.  (`Shower::start` also
republishes the off state once via `set_shower_state(false, true)`; that
startup publication precedes every run considered here and leaves
`old_shower_state_ = false`.) -/
def initState (timer alert : Bool) (trig cold : Nat) : ShowerState :=
  { shower_timer_ := timer, shower_alert_ := alert,
    shower_alert_trigger_ := trig, shower_alert_coldshot_ := cold,
    timer_start_ := 0, timer_pause_ := 0, alert_timer_start_ := 0,
    duration_ := 0, shower_state_ := false, doing_cold_shot_ := false,
    force_coldshot := false, old_shower_state_ := false }

/-- A mid-session state with monitoring on and the cold-shot alert disabled:
the session began at uptime `t0`, the recorded pause onset is `pz` (0 when
none), and `r` says whether the session has been recognized as a shower. -/
def sessionState (trig cold t0 pz : Nat) (r : Bool) : ShowerState :=
  { shower_timer_ := true, shower_alert_ := false,
    shower_alert_trigger_ := trig, shower_alert_coldshot_ := cold,
    timer_start_ := t0, timer_pause_ := pz, alert_timer_start_ := 0,
    duration_ := 0, shower_state_ := r, doing_cold_shot_ := false,
    force_coldshot := false, old_shower_state_ := r }

/-- Whether some tick of `as` lies beyond the recognition threshold measured
from session start `t0`. -/
def anyCross (t0 : Nat) (as : List Tick) : Bool :=
  as.any fun t => decide (SHOWER_MIN_DURATION < sub32 t.time t0)

/-- Tick trace refuting the literal reading of the summary-emission property:
a session of 182000 ms of tap activity followed by 16000 ms of inactivity. -/
def c1CounterexampleRun : List Tick :=
  [⟨1000, true, 0⟩, ⟨182000, true, 0⟩, ⟨183000, false, 0⟩, ⟨199000, false, 0⟩]

/-- Action trace exhibiting the stale-force-flag behaviour: a recognized
shower, a granted coldshot request that is never consumed because the tap
goes off first, a session close, and a fresh short session. -/
def c2BugTrace : List Act :=
  [Act.tick ⟨1000, true, 0⟩, Act.tick ⟨200000, true, 0⟩, Act.coldshotRequest,
   Act.tick ⟨201000, false, 0⟩, Act.tick ⟨220000, false, 0⟩,
   Act.tick ⟨230000, true, 0⟩, Act.tick ⟨231000, true, 0⟩]

/-- Tick trace with a 4500 ms tap-off gap (shorter than the pause tolerance)
in the middle of a long session, then a final gap beyond the tolerance. -/
def c3CounterexampleRun : List Tick :=
  [⟨1000, true, 0⟩, ⟨200000, true, 0⟩, ⟨300000, true, 0⟩, ⟨300500, false, 0⟩,
   ⟨305000, false, 0⟩, ⟨310000, true, 0⟩, ⟨400000, true, 0⟩, ⟨400500, false, 0⟩]

lemma sub32_self (a : Nat) : sub32 a a = 0 := by
  unfold sub32 UINT32_MOD
  omega

lemma sub32_wrap_eq (a e : Nat) :
    sub32 ((a + e) % UINT32_MOD) a = e % UINT32_MOD := by
  unfold sub32 UINT32_MOD
  omega

lemma string_append_check :
    "Coldshot failed. Shower " ++ "not active" = "Coldshot failed. Shower not active" := by
  decide

lemma loop_idle (s : ShowerState) (n w : Nat)
    (h1 : s.timer_start_ = 0) (h2 : s.timer_pause_ = 0)
    (h3 : s.doing_cold_shot_ = false) :
    Shower.loop s false n w = (s, []) := by
  by_cases ht : s.shower_timer_ = false
  · simp [Shower.loop, ht]
  · simp [Shower.loop, ht, h1, h2, h3]

lemma runLoop_idle (s : ShowerState) (ticks : List Tick)
    (h1 : s.timer_start_ = 0) (h2 : s.timer_pause_ = 0)
    (h3 : s.doing_cold_shot_ = false)
    (hticks : ∀ t ∈ ticks, t.tap = false) :
    runLoop s ticks = (s, []) := by
  induction ticks with
  | nil => rfl
  | cons t rest ih =>
    have ht : t.tap = false := hticks t (by simp)
    have hrest : ∀ u ∈ rest, u.tap = false := fun u hu => hticks u (by simp [hu])
    simp [runLoop, ht, loop_idle s t.time t.wall h1 h2 h3, ih hrest]

lemma loop_session_start (s : ShowerState) (n w : Nat)
    (ht : s.shower_timer_ = true) (hc : s.doing_cold_shot_ = false)
    (h0 : s.timer_start_ = 0) :
    Shower.loop s true n w =
      ({ s with timer_start_ := n, timer_pause_ := 0, doing_cold_shot_ := false,
                duration_ := 0, shower_state_ := false }, []) := by
  simp [Shower.loop, ht, hc, h0]

lemma loop_active_recog_noop (trig cold t0 pz : Nat) (h0 : t0 ≠ 0) (n w : Nat) :
    Shower.loop (sessionState trig cold t0 pz true) true n w =
      (sessionState trig cold t0 pz true, []) := by
  simp [Shower.loop, sessionState, h0]

lemma loop_active_cross (trig cold t0 pz : Nat) (h0 : t0 ≠ 0) (n w : Nat)
    (hc : SHOWER_MIN_DURATION < sub32 n t0) :
    Shower.loop (sessionState trig cold t0 pz false) true n w =
      (sessionState trig cold t0 pz true, [Event.stateChanged true]) := by
  simp [Shower.loop, sessionState, Shower.set_shower_state, h0, hc]

lemma loop_active_nocross (trig cold t0 pz : Nat) (h0 : t0 ≠ 0) (n w : Nat)
    (hc : ¬ SHOWER_MIN_DURATION < sub32 n t0) :
    Shower.loop (sessionState trig cold t0 pz false) true n w =
      (sessionState trig cold t0 pz false, []) := by
  simp [Shower.loop, sessionState, h0, hc]

lemma runLoop_active_recog (trig cold t0 pz : Nat) (h0 : t0 ≠ 0)
    (as : List Tick) (has : ∀ t ∈ as, t.tap = true) :
    runLoop (sessionState trig cold t0 pz true) as =
      (sessionState trig cold t0 pz true, []) := by
  induction as with
  | nil => rfl
  | cons t rest ih =>
    have ht : t.tap = true := has t (by simp)
    have hrest : ∀ u ∈ rest, u.tap = true := fun u hu => has u (by simp [hu])
    simp [runLoop, ht, loop_active_recog_noop trig cold t0 pz h0 t.time t.wall,
      ih hrest]

lemma runLoop_active_detect (trig cold t0 pz : Nat) (h0 : t0 ≠ 0)
    (as : List Tick) (has : ∀ t ∈ as, t.tap = true) :
    runLoop (sessionState trig cold t0 pz false) as =
      (sessionState trig cold t0 pz (anyCross t0 as),
       if anyCross t0 as = true then [Event.stateChanged true] else []) := by
  induction as with
  | nil => simp [runLoop, anyCross]
  | cons t rest ih =>
    have ht : t.tap = true := has t (by simp)
    have hrest : ∀ u ∈ rest, u.tap = true := fun u hu => has u (by simp [hu])
    by_cases hc : SHOWER_MIN_DURATION < sub32 t.time t0
    · have hstep := loop_active_cross trig cold t0 pz h0 t.time t.wall hc
      have hany : anyCross t0 (t :: rest) = true := by
        simp [anyCross, hc]
      simp [runLoop, ht, hstep, runLoop_active_recog trig cold t0 pz h0 rest hrest,
        hany]
    · have hstep := loop_active_nocross trig cold t0 pz h0 t.time t.wall hc
      have hany : anyCross t0 (t :: rest) = anyCross t0 rest := by
        simp [anyCross, hc]
      simp [runLoop, ht, hstep, ih hrest, hany]

lemma loop_pause_record (trig cold t0 p : Nat) (r : Bool) (h0 : t0 ≠ 0) (w : Nat) :
    Shower.loop (sessionState trig cold t0 0 r) false p w =
      (sessionState trig cold t0 p r, []) := by
  simp [Shower.loop, sessionState, h0, sub32_self]

lemma loop_pause_hold (trig cold t0 p : Nat) (r : Bool) (hp : p ≠ 0) (n w : Nat)
    (hn : ¬ SHOWER_PAUSE_TIME < sub32 n p) :
    Shower.loop (sessionState trig cold t0 p r) false n w =
      (sessionState trig cold t0 p r, []) := by
  simp [Shower.loop, sessionState, hp, hn]

lemma runLoop_pause_hold (trig cold t0 p : Nat) (r : Bool) (hp : p ≠ 0)
    (ms : List Tick)
    (hms : ∀ t ∈ ms, t.tap = false ∧ ¬ SHOWER_PAUSE_TIME < sub32 t.time p) :
    runLoop (sessionState trig cold t0 p r) ms =
      (sessionState trig cold t0 p r, []) := by
  induction ms with
  | nil => rfl
  | cons t rest ih =>
    have ht := hms t (by simp)
    have hrest : ∀ u ∈ rest, u.tap = false ∧ ¬ SHOWER_PAUSE_TIME < sub32 u.time p :=
      fun u hu => hms u (by simp [hu])
    simp [runLoop, ht.1, loop_pause_hold trig cold t0 p r hp t.time t.wall ht.2,
      ih hrest]

lemma loop_close (trig cold t0 p : Nat) (r : Bool) (hp : p ≠ 0) (q w : Nat)
    (hq : SHOWER_PAUSE_TIME < sub32 q p) :
    Shower.loop (sessionState trig cold t0 p r) false q w =
      ({ shower_timer_ := true, shower_alert_ := false,
         shower_alert_trigger_ := trig, shower_alert_coldshot_ := cold,
         timer_start_ := 0, timer_pause_ := 0, alert_timer_start_ := 0,
         duration_ := if SHOWER_OFFSET_TIME < sub32 p t0
                      then sub32 p t0 - SHOWER_OFFSET_TIME else 0,
         shower_state_ := false, doing_cold_shot_ := false,
         force_coldshot := false, old_shower_state_ := false },
       (if SHOWER_OFFSET_TIME < sub32 p t0 ∧
           SHOWER_MIN_DURATION < sub32 p t0 - SHOWER_OFFSET_TIME then
          [Event.sessionSummary ((sub32 p t0 - SHOWER_OFFSET_TIME) / 1000)
            (if 1576800000 < w then some w else none)]
        else []) ++
       (if r = true then [Event.stateChanged false] else [])) := by
  cases r <;>
    by_cases ho : SHOWER_OFFSET_TIME < sub32 p t0 <;>
      simp [Shower.loop, sessionState, Shower.set_shower_state, hp, hq, ho]

lemma runLoop_append (s : ShowerState) (l1 l2 : List Tick) :
    runLoop s (l1 ++ l2) =
      ((runLoop (runLoop s l1).1 l2).1,
       (runLoop s l1).2 ++ (runLoop (runLoop s l1).1 l2).2) := by
  induction l1 generalizing s with
  | nil => simp [runLoop]
  | cons t rest ih => simp [runLoop, ih]

lemma loop_coldshot_hold (s : ShowerState) (tap : Bool) (n w : Nat)
    (h1 : s.shower_timer_ = true) (h2 : s.doing_cold_shot_ = true)
    (hn : ¬ s.shower_alert_coldshot_ < sub32 n s.alert_timer_start_) :
    Shower.loop s tap n w = (s, []) := by
  simp [Shower.loop, h1, h2, hn]

lemma loop_coldshot_stop (s : ShowerState) (tap : Bool) (n w : Nat)
    (h1 : s.shower_timer_ = true) (h2 : s.doing_cold_shot_ = true)
    (hn : s.shower_alert_coldshot_ < sub32 n s.alert_timer_start_) :
    Shower.loop s tap n w =
      ({ s with doing_cold_shot_ := false, force_coldshot := false },
       [Event.actuator true]) := by
  simp [Shower.loop, Shower.shower_alert_stop, h1, h2, hn]

lemma runLoop_coldshot_hold (s : ShowerState)
    (h1 : s.shower_timer_ = true) (h2 : s.doing_cold_shot_ = true)
    (ms : List Tick)
    (hms : ∀ t ∈ ms, ¬ s.shower_alert_coldshot_ < sub32 t.time s.alert_timer_start_) :
    runLoop s ms = (s, []) := by
  induction ms with
  | nil => rfl
  | cons t rest ih =>
    have ht := hms t (by simp)
    have hrest : ∀ u ∈ rest,
        ¬ s.shower_alert_coldshot_ < sub32 u.time s.alert_timer_start_ :=
      fun u hu => hms u (by simp [hu])
    simp [runLoop, loop_coldshot_hold s t.tap t.time t.wall h1 h2 ht, ih hrest]

lemma loop_trigger_coldshot (s : ShowerState) (n w : Nat)
    (h1 : s.shower_timer_ = true) (h2 : s.doing_cold_shot_ = false)
    (h3 : s.shower_state_ = true) (h4 : s.timer_start_ ≠ 0)
    (h5 : (s.shower_alert_ = true ∧
           s.shower_alert_trigger_ < sub32 n s.timer_start_) ∨
          s.force_coldshot = true) :
    Shower.loop s true n w =
      ({ s with doing_cold_shot_ := true, force_coldshot := false,
                alert_timer_start_ := n },
       [Event.actuator false]) := by
  simp [Shower.loop, Shower.shower_alert_start, h1, h2, h3, h4, h5]

lemma bool_not_false {b : Bool} (h : ¬ b = false) : b = true := by
  cases b
  · exact absurd rfl h
  · rfl

lemma loop_nocross_step (s : ShowerState) (t : Tick) (t0 : Nat)
    (h0 : t0 ≠ 0)
    (h1 : s.shower_timer_ = true) (h2 : s.shower_state_ = false)
    (h3 : s.old_shower_state_ = false) (h4 : s.timer_start_ = t0)
    (htap : t.tap = true) (hnc : ¬ SHOWER_MIN_DURATION < sub32 t.time t0) :
    (Shower.loop s t.tap t.time t.wall).1.shower_timer_ = true ∧
    (Shower.loop s t.tap t.time t.wall).1.shower_state_ = false ∧
    (Shower.loop s t.tap t.time t.wall).1.old_shower_state_ = false ∧
    (Shower.loop s t.tap t.time t.wall).1.timer_start_ = t0 ∧
    ∀ b, Event.stateChanged b ∉ (Shower.loop s t.tap t.time t.wall).2 := by
  by_cases hdc : s.doing_cold_shot_ = false
  · by_cases halert : (s.shower_alert_ = true ∧
        s.shower_alert_trigger_ < sub32 t.time t0) ∨
        s.force_coldshot = true
    · simp [Shower.loop, Shower.shower_alert_start, h1, h2, h3, h4, h0, hdc,
        htap, hnc, halert]
    · simp [Shower.loop, h1, h2, h3, h4, h0, hdc, htap, hnc, halert]
  · have hdc2 := bool_not_false hdc
    by_cases hcc : s.shower_alert_coldshot_ < sub32 t.time s.alert_timer_start_
    · rw [loop_coldshot_stop s t.tap t.time t.wall h1 hdc2 hcc]
      simp [h1, h2, h3, h4]
    · rw [loop_coldshot_hold s t.tap t.time t.wall h1 hdc2 hcc]
      simp [h1, h2, h3, h4]

lemma loop_inactive_norecog_step (s : ShowerState) (t : Tick)
    (h2 : s.shower_state_ = false) (h3 : s.old_shower_state_ = false)
    (htap : t.tap = false) :
    (Shower.loop s t.tap t.time t.wall).1.shower_state_ = false ∧
    (Shower.loop s t.tap t.time t.wall).1.old_shower_state_ = false ∧
    ∀ b, Event.stateChanged b ∉ (Shower.loop s t.tap t.time t.wall).2 := by
  by_cases hti : s.shower_timer_ = false
  · simp [Shower.loop, hti, h2, h3]
  · by_cases hdc : s.doing_cold_shot_ = false
    · rw [htap]
      unfold Shower.loop
      simp only [hti, hdc, if_false, if_true, Bool.false_eq_true, ite_false]
      split_ifs <;>
        simp_all [Shower.set_shower_state]
    · have hdc2 := bool_not_false hdc
      by_cases hcc : s.shower_alert_coldshot_ < sub32 t.time s.alert_timer_start_
      · rw [loop_coldshot_stop s t.tap t.time t.wall (bool_not_false hti) hdc2 hcc]
        simp [h2, h3]
      · rw [loop_coldshot_hold s t.tap t.time t.wall (bool_not_false hti) hdc2 hcc]
        simp [h2, h3]

lemma runLoop_active_nocross_inv (t0 : Nat) (h0 : t0 ≠ 0) (as : List Tick) :
    ∀ s : ShowerState, s.shower_timer_ = true → s.shower_state_ = false →
      s.old_shower_state_ = false → s.timer_start_ = t0 →
      (∀ t ∈ as, t.tap = true ∧ ¬ SHOWER_MIN_DURATION < sub32 t.time t0) →
      (runLoop s as).1.shower_timer_ = true ∧
      (runLoop s as).1.shower_state_ = false ∧
      (runLoop s as).1.old_shower_state_ = false ∧
      (runLoop s as).1.timer_start_ = t0 ∧
      ∀ b, Event.stateChanged b ∉ (runLoop s as).2 := by
  induction as with
  | nil =>
    intro s hA hB hC hD _
    exact ⟨hA, hB, hC, hD, fun b hb => by simp [runLoop] at hb⟩
  | cons t rest ih =>
    intro s hA hB hC hD hall
    have ht := hall t (by simp)
    have hrest : ∀ u ∈ rest, u.tap = true ∧ ¬ SHOWER_MIN_DURATION < sub32 u.time t0 :=
      fun u hu => hall u (List.mem_cons_of_mem t hu)
    obtain ⟨q1, q2, q3, q4, q5⟩ := loop_nocross_step s t t0 h0 hA hB hC hD ht.1 ht.2
    obtain ⟨w1, w2, w3, w4, w5⟩ :=
      ih (Shower.loop s t.tap t.time t.wall).1 q1 q2 q3 q4 hrest
    refine ⟨by simpa [runLoop] using w1, by simpa [runLoop] using w2,
      by simpa [runLoop] using w3, by simpa [runLoop] using w4, ?_⟩
    intro b hb
    simp only [runLoop] at hb
    rcases List.mem_append.mp hb with h | h
    · exact q5 b h
    · exact w5 b h

lemma runLoop_inactive_norecog_inv (bs : List Tick) :
    ∀ s : ShowerState, s.shower_state_ = false → s.old_shower_state_ = false →
      (∀ t ∈ bs, t.tap = false) →
      (runLoop s bs).1.shower_state_ = false ∧
      (runLoop s bs).1.old_shower_state_ = false ∧
      ∀ b, Event.stateChanged b ∉ (runLoop s bs).2 := by
  induction bs with
  | nil =>
    intro s hB hC _
    exact ⟨hB, hC, fun b hb => by simp [runLoop] at hb⟩
  | cons t rest ih =>
    intro s hB hC hall
    have ht := hall t (by simp)
    have hrest : ∀ u ∈ rest, u.tap = false :=
      fun u hu => hall u (List.mem_cons_of_mem t hu)
    obtain ⟨q2, q3, q5⟩ := loop_inactive_norecog_step s t hB hC ht
    obtain ⟨w2, w3, w5⟩ := ih (Shower.loop s t.tap t.time t.wall).1 q2 q3 hrest
    refine ⟨by simpa [runLoop] using w2, by simpa [runLoop] using w3, ?_⟩
    intro b hb
    simp only [runLoop] at hb
    rcases List.mem_append.mp hb with h | h
    · exact q5 b h
    · exact w5 b h

/-- C4: the `coldshot` command with no recognized shower replies with the
failure message (ending in the words "not active"), issues zero actuator
commands, leaves every session field unchanged, and clears the force flag;
with a recognized shower it replies "OK" and sets the one-shot force flag. -/
theorem C4_coldshot_request (s : ShowerState) :
    (s.shower_state_ = false →
      Shower.coldshot_cmd s =
        ({ s with force_coldshot := false },
         "Coldshot failed. Shower " ++ "not active", [])) ∧
    (s.shower_state_ = true →
      Shower.coldshot_cmd s =
        ({ s with force_coldshot := true }, "OK", [])) := by
  constructor <;> intro h <;>
    simp [Shower.coldshot_cmd, h, string_append_check]

/-- Witness for C4 at two concrete states. -/
theorem C4_coldshot_request_witness :
    Shower.coldshot_cmd (initState true false 3 4) =
      ({ initState true false 3 4 with force_coldshot := false },
       "Coldshot failed. Shower " ++ "not active", []) ∧
    Shower.coldshot_cmd { initState true false 3 4 with shower_state_ := true } =
      ({ initState true false 3 4 with
         shower_state_ := true
         force_coldshot := true }, "OK", []) :=
  ⟨(C4_coldshot_request (initState true false 3 4)).1 rfl,
   (C4_coldshot_request { initState true false 3 4 with shower_state_ := true }).2 rfl⟩

/-- C7: once the session state is back at its idle reset values, any further
ticks with the tap inactive change nothing and emit nothing. -/
theorem C7_closed_session_idempotent (s : ShowerState) (ticks : List Tick)
    (h1 : s.timer_start_ = 0) (h2 : s.timer_pause_ = 0)
    (h3 : s.doing_cold_shot_ = false)
    (hticks : ∀ t ∈ ticks, t.tap = false) :
    runLoop s ticks = (s, []) :=
  runLoop_idle s ticks h1 h2 h3 hticks

/-- Witness for C7: three inactive ticks on the freshly reset state. -/
theorem C7_closed_session_idempotent_witness :
    runLoop (initState true true 600000 10000)
        [⟨100, false, 0⟩, ⟨30000, false, 0⟩, ⟨90000, false, 0⟩] =
      (initState true true 600000 10000, []) :=
  C7_closed_session_idempotent _ _ rfl rfl rfl (by decide)

/-- C8: with `shower_timer_` (monitoring) off, a tick is a complete no-op for
every tap reading, uptime and wall clock: same state, no events. -/
theorem C8_monitoring_disabled_noop (s : ShowerState) (tap : Bool) (n w : Nat)
    (h : s.shower_timer_ = false) :
    Shower.loop s tap n w = (s, []) := by
  simp [Shower.loop, h]

/-- Witness for C8 at a concrete disabled state. -/
theorem C8_monitoring_disabled_noop_witness :
    Shower.loop (initState false true 600000 10000) true 12345 1700000000 =
      (initState false true 600000 10000, []) :=
  C8_monitoring_disabled_noop _ true 12345 1700000000 rfl

/-- C9: the uint32 subtraction used for every elapsed-time comparison in the
loop recovers the true elapsed time modulo the counter width even across a
counter wrap, and consequently the cold-shot termination comparison behaves
according to the true elapsed time `e` even when the counter wrapped between
the intervention start and the current tick. -/
theorem C9_wraparound_safe (s : ShowerState) (tap : Bool) (a e w : Nat)
    (h1 : s.shower_timer_ = true) (h2 : s.doing_cold_shot_ = true) :
    sub32 ((a + e) % UINT32_MOD) a = e % UINT32_MOD ∧
    (¬ s.shower_alert_coldshot_ < e % UINT32_MOD →
      Shower.loop s tap ((s.alert_timer_start_ + e) % UINT32_MOD) w = (s, [])) ∧
    (s.shower_alert_coldshot_ < e % UINT32_MOD →
      Shower.loop s tap ((s.alert_timer_start_ + e) % UINT32_MOD) w =
        ({ s with doing_cold_shot_ := false, force_coldshot := false },
         [Event.actuator true])) := by
  refine ⟨sub32_wrap_eq a e, fun h => ?_, fun h => ?_⟩
  · exact loop_coldshot_hold s tap _ w h1 h2 (by rw [sub32_wrap_eq]; exact h)
  · exact loop_coldshot_stop s tap _ w h1 h2 (by rw [sub32_wrap_eq]; exact h)

/-- Witness for C9: the counter wraps between intervention start 4294960000
and the current tick; the true elapsed time 10000 ms ends the cold shot. -/
theorem C9_wraparound_safe_witness :
    sub32 ((4294960000 + 10000) % UINT32_MOD) 4294960000 = 10000 % UINT32_MOD ∧
    (¬ (5000 : Nat) < 10000 % UINT32_MOD →
      Shower.loop
        { initState true true 600000 5000 with
          doing_cold_shot_ := true
          alert_timer_start_ := 4294960000 } true
        ((4294960000 + 10000) % UINT32_MOD) 0 =
      ({ initState true true 600000 5000 with
         doing_cold_shot_ := true
         alert_timer_start_ := 4294960000 }, [])) ∧
    ((5000 : Nat) < 10000 % UINT32_MOD →
      Shower.loop
        { initState true true 600000 5000 with
          doing_cold_shot_ := true
          alert_timer_start_ := 4294960000 } true
        ((4294960000 + 10000) % UINT32_MOD) 0 =
      ({ initState true true 600000 5000 with
         doing_cold_shot_ := false
         force_coldshot := false
         alert_timer_start_ := 4294960000 },
       [Event.actuator true])) :=
  C9_wraparound_safe
    { initState true true 600000 5000 with
      doing_cold_shot_ := true
      alert_timer_start_ := 4294960000 } true 4294960000 10000 0 rfl rfl

/-- C2 (code-bug exhibit): along `c2BugTrace` the force flag set during a
recognized shower survives the session close, so the next short session
starts a cold shot while `shower_state_` is still false: the reached state
has `doing_cold_shot_ = true` and `shower_state_ = false`, and the actuator
was commanded off during an unrecognized session. -/
theorem C2_coldshot_without_recognition :
    ((runActs (initState true false 1000000000 10000) c2BugTrace).1.doing_cold_shot_
        = true) ∧
    ((runActs (initState true false 1000000000 10000) c2BugTrace).1.shower_state_
        = false) ∧
    (runActs (initState true false 1000000000 10000) c2BugTrace).2 =
      [Event.stateChanged true, Event.sessionSummary 195 none,
       Event.stateChanged false, Event.actuator false] :=
  ⟨rfl, rfl, rfl⟩

/-- C1 counterexample: the tap is continuously active for d = 182000 ms,
strictly more than MIN_SHOWER_DURATION, then inactive for 16000 ms, at least
PAUSE_TOLERANCE — yet zero SessionSummary events are emitted, because the
code emits a summary only when d - OFFSET exceeds MIN_SHOWER_DURATION. -/
theorem C1_counterexample :
    (runLoop (initState true false 600000 10000) c1CounterexampleRun).2 =
      [Event.stateChanged true, Event.stateChanged false] ∧
    ((runLoop (initState true false 600000 10000) c1CounterexampleRun).2.countP
      fun e => match e with
        | Event.sessionSummary _ _ => true
        | _ => false) = 0 ∧
    SHOWER_MIN_DURATION < sub32 183000 1000 ∧
    SHOWER_PAUSE_TIME ≤ sub32 199000 183000 :=
  ⟨rfl, rfl, by decide, by decide⟩

/-- C3 counterexample: a 4500 ms off-gap (shorter than PAUSE_TOLERANCE)
starting at uptime 300500 does not end the session, but the reported
duration is 294 s — measured from session start 1000 to the first pause
onset 300500 — not the 394 s that accumulating across the gap as if the tap
never went off would give (the session closes at the first off tick of the
second gap, 400500). -/
theorem C3_counterexample :
    (runLoop (initState true false 1000000000 10000) c3CounterexampleRun).2 =
      [Event.stateChanged true, Event.sessionSummary 294 none,
       Event.stateChanged false] ∧
    sub32 305000 300500 < SHOWER_PAUSE_TIME ∧
    (294 : Nat) ≠ (sub32 400500 1000 - SHOWER_OFFSET_TIME) / 1000 :=
  ⟨rfl, by decide, by decide⟩

/-- C1 (amended): for every run in which the tap is continuously active from
first active tick `t0` with observed activity span `d = sub32 p t0` (first
inactive tick at `p`) satisfying d > MIN_SHOWER_DURATION + OFFSET, a
recognition tick occurred, and the tap then stays inactive past
PAUSE_TOLERANCE, the monitor emits exactly one SessionSummary with
duration_seconds = (d - OFFSET)/1000, and exactly one StateChanged false
after the single StateChanged true (cold-shot alert disabled). -/
theorem C1_amended_session_summary (trig cold t0 p q w0 w1 w : Nat)
    (as ms : List Tick)
    (h0 : t0 ≠ 0) (hp : p ≠ 0)
    (has : ∀ t ∈ as, t.tap = true)
    (hcross : ∃ t ∈ as, SHOWER_MIN_DURATION < sub32 t.time t0)
    (hms : ∀ t ∈ ms, t.tap = false ∧ ¬ SHOWER_PAUSE_TIME < sub32 t.time p)
    (hq : SHOWER_PAUSE_TIME < sub32 q p)
    (hd : SHOWER_MIN_DURATION + SHOWER_OFFSET_TIME < sub32 p t0) :
    (runLoop (initState true false trig cold)
      (⟨t0, true, w0⟩ :: (as ++ ⟨p, false, w1⟩ :: (ms ++ [⟨q, false, w⟩])))).2 =
      [Event.stateChanged true,
       Event.sessionSummary ((sub32 p t0 - SHOWER_OFFSET_TIME) / 1000)
         (if 1576800000 < w then some w else none),
       Event.stateChanged false] := by
  have hoff : SHOWER_OFFSET_TIME < sub32 p t0 := by omega
  have hmin : SHOWER_MIN_DURATION < sub32 p t0 - SHOWER_OFFSET_TIME := by omega
  have step0 : Shower.loop (initState true false trig cold) true t0 w0
      = (sessionState trig cold t0 0 false, []) := by
    simp [Shower.loop, initState, sessionState]
  have hany : anyCross t0 as = true := by
    rcases hcross with ⟨t, ht, hlt⟩
    simp only [anyCross, List.any_eq_true, decide_eq_true_eq]
    exact ⟨t, ht, hlt⟩
  have hdetect := runLoop_active_detect trig cold t0 0 h0 as has
  rw [hany, if_pos rfl] at hdetect
  simp only [runLoop, step0]
  rw [runLoop_append, hdetect]
  simp only [runLoop, loop_pause_record trig cold t0 p true h0 w1]
  rw [runLoop_append, runLoop_pause_hold trig cold t0 p true hp ms hms]
  simp only [runLoop, loop_close trig cold t0 p true hp q w hq]
  simp [hoff, hmin]

/-- Witness for C1 (amended): a 199000 ms observed activity span with one
recognition tick, an empty middle pause phase, and a closing tick 16000 ms
after the pause onset. -/
theorem C1_amended_session_summary_witness :
    (runLoop (initState true false 600000 10000)
      ((⟨1000, true, 0⟩ : Tick) :: ([(⟨190000, true, 0⟩ : Tick)]
        ++ (⟨200000, false, 0⟩ : Tick) :: (([] : List Tick)
        ++ [(⟨216000, false, 0⟩ : Tick)])))).2 =
      [Event.stateChanged true,
       Event.sessionSummary ((sub32 200000 1000 - SHOWER_OFFSET_TIME) / 1000)
         (if 1576800000 < 0 then some 0 else none),
       Event.stateChanged false] :=
  C1_amended_session_summary 600000 10000 1000 200000 216000 0 0 0
    [⟨190000, true, 0⟩] [] (by decide) (by decide) (by decide) (by decide)
    (by decide) (by decide) (by decide)

/-- C3 (amended): a tap-off gap shorter than PAUSE_TOLERANCE does not
terminate the session — after the gap and resumed activity the session state
still carries `timer_start_ = t0` and `shower_state_ = true` — but the
recorded pause onset `p1` is retained across the resumption, so the
eventually reported duration is `(sub32 p1 t0 - OFFSET)/1000`, measured from
session start to the FIRST pause onset, and the session closes at the first
post-resumption off tick `q` with `sub32 q p1 > PAUSE_TOLERANCE` (cold-shot
alert disabled). -/
theorem C3_amended_pause_gap (trig cold t0 p1 q w0 w1 w : Nat)
    (as ms rs : List Tick)
    (h0 : t0 ≠ 0) (hp : p1 ≠ 0)
    (has : ∀ t ∈ as, t.tap = true)
    (hcross : ∃ t ∈ as, SHOWER_MIN_DURATION < sub32 t.time t0)
    (hms : ∀ t ∈ ms, t.tap = false ∧ ¬ SHOWER_PAUSE_TIME < sub32 t.time p1)
    (hrs : ∀ t ∈ rs, t.tap = true)
    (hq : SHOWER_PAUSE_TIME < sub32 q p1)
    (hd : SHOWER_MIN_DURATION + SHOWER_OFFSET_TIME < sub32 p1 t0) :
    ((runLoop (initState true false trig cold)
        (⟨t0, true, w0⟩ :: (as ++ ⟨p1, false, w1⟩ :: (ms ++ rs)))).1.timer_start_
      = t0 ∧
     (runLoop (initState true false trig cold)
        (⟨t0, true, w0⟩ :: (as ++ ⟨p1, false, w1⟩ :: (ms ++ rs)))).1.shower_state_
      = true) ∧
    (runLoop (initState true false trig cold)
        (⟨t0, true, w0⟩ :: (as ++ ⟨p1, false, w1⟩ :: (ms ++ (rs ++ [⟨q, false, w⟩]))))).2
      = [Event.stateChanged true,
         Event.sessionSummary ((sub32 p1 t0 - SHOWER_OFFSET_TIME) / 1000)
           (if 1576800000 < w then some w else none),
         Event.stateChanged false] := by
  have hoff : SHOWER_OFFSET_TIME < sub32 p1 t0 := by omega
  have hmin : SHOWER_MIN_DURATION < sub32 p1 t0 - SHOWER_OFFSET_TIME := by omega
  have step0 : Shower.loop (initState true false trig cold) true t0 w0
      = (sessionState trig cold t0 0 false, []) := by
    simp [Shower.loop, initState, sessionState]
  have hany : anyCross t0 as = true := by
    rcases hcross with ⟨t, ht, hlt⟩
    simp only [anyCross, List.any_eq_true, decide_eq_true_eq]
    exact ⟨t, ht, hlt⟩
  have hdetect := runLoop_active_detect trig cold t0 0 h0 as has
  rw [hany, if_pos rfl] at hdetect
  refine ⟨?_, ?_⟩
  · constructor <;>
    · simp only [runLoop, step0]
      rw [runLoop_append, hdetect]
      simp only [runLoop, loop_pause_record trig cold t0 p1 true h0 w1]
      rw [runLoop_append, runLoop_pause_hold trig cold t0 p1 true hp ms hms,
        runLoop_active_recog trig cold t0 p1 h0 rs hrs]
      simp [sessionState]
  · simp only [runLoop, step0]
    rw [runLoop_append, hdetect]
    simp only [runLoop, loop_pause_record trig cold t0 p1 true h0 w1]
    rw [runLoop_append, runLoop_pause_hold trig cold t0 p1 true hp ms hms,
      runLoop_append, runLoop_active_recog trig cold t0 p1 h0 rs hrs]
    simp only [runLoop, loop_close trig cold t0 p1 true hp q w hq]
    simp [hoff, hmin]

/-- Witness for C3 (amended) on the gap run: activity from 1000, first pause
onset 300500, a 4500 ms gap tick, resumption at 310000 and 400000, closing
tick 400500. -/
theorem C3_amended_pause_gap_witness :
    ((runLoop (initState true false 1000000000 10000)
        ((⟨1000, true, 0⟩ : Tick) ::
          ([(⟨200000, true, 0⟩ : Tick), (⟨300000, true, 0⟩ : Tick)]
            ++ (⟨300500, false, 0⟩ : Tick) ::
              ([(⟨305000, false, 0⟩ : Tick)]
                ++ [(⟨310000, true, 0⟩ : Tick), (⟨400000, true, 0⟩ : Tick)])))).1.timer_start_
      = 1000 ∧
     (runLoop (initState true false 1000000000 10000)
        ((⟨1000, true, 0⟩ : Tick) ::
          ([(⟨200000, true, 0⟩ : Tick), (⟨300000, true, 0⟩ : Tick)]
            ++ (⟨300500, false, 0⟩ : Tick) ::
              ([(⟨305000, false, 0⟩ : Tick)]
                ++ [(⟨310000, true, 0⟩ : Tick), (⟨400000, true, 0⟩ : Tick)])))).1.shower_state_
      = true) ∧
    (runLoop (initState true false 1000000000 10000)
        ((⟨1000, true, 0⟩ : Tick) ::
          ([(⟨200000, true, 0⟩ : Tick), (⟨300000, true, 0⟩ : Tick)]
            ++ (⟨300500, false, 0⟩ : Tick) ::
              ([(⟨305000, false, 0⟩ : Tick)]
                ++ ([(⟨310000, true, 0⟩ : Tick), (⟨400000, true, 0⟩ : Tick)]
                  ++ [(⟨400500, false, 0⟩ : Tick)]))))).2
      = [Event.stateChanged true,
         Event.sessionSummary ((sub32 300500 1000 - SHOWER_OFFSET_TIME) / 1000)
           (if 1576800000 < 0 then some 0 else none),
         Event.stateChanged false] :=
  C3_amended_pause_gap 1000000000 10000 1000 300500 400500 0 0 0
    [⟨200000, true, 0⟩, ⟨300000, true, 0⟩] [⟨305000, false, 0⟩]
    [⟨310000, true, 0⟩, ⟨400000, true, 0⟩]
    (by decide) (by decide) (by decide) (by decide) (by decide) (by decide)
    (by decide) (by decide)

/-- C6: in a run whose first active tick is at `t0` and whose further active
ticks all lie within MIN_SHOWER_DURATION of `t0` (the tap-active span is
below the recognition threshold), followed by any tap-inactive ticks, no
StateChanged true event is ever emitted — for any alert configuration. -/
theorem C6_no_recognition_below_min (trig cold t0 w0 : Nat) (alert : Bool)
    (as bs : List Tick)
    (h0 : t0 ≠ 0)
    (has : ∀ t ∈ as, t.tap = true ∧ ¬ SHOWER_MIN_DURATION < sub32 t.time t0)
    (hbs : ∀ t ∈ bs, t.tap = false) :
    Event.stateChanged true ∉
      (runLoop (initState true alert trig cold)
        (⟨t0, true, w0⟩ :: (as ++ bs))).2 := by
  have step0 : Shower.loop (initState true alert trig cold) true t0 w0
      = ({ initState true alert trig cold with
            timer_start_ := t0
            timer_pause_ := 0
            doing_cold_shot_ := false
            duration_ := 0
            shower_state_ := false }, []) :=
    loop_session_start (initState true alert trig cold) t0 w0 rfl rfl rfl
  obtain ⟨a1, a2, a3, a4, a5⟩ :=
    runLoop_active_nocross_inv t0 h0 as
      { initState true alert trig cold with
        timer_start_ := t0
        timer_pause_ := 0
        doing_cold_shot_ := false
        duration_ := 0
        shower_state_ := false } rfl rfl rfl rfl has
  obtain ⟨b1, b2, b3⟩ :=
    runLoop_inactive_norecog_inv bs _ a2 a3 hbs
  simp only [runLoop, step0]
  rw [runLoop_append]
  intro hmem
  simp only [List.nil_append] at hmem
  rcases List.mem_append.mp hmem with h | h
  · exact a5 true h
  · exact b3 true h

/-- Witness for C6: a 99000 ms active span with the alert feature on and a
low trigger (a cold shot fires during the run), then two inactive ticks;
still no StateChanged true. -/
theorem C6_no_recognition_below_min_witness :
    Event.stateChanged true ∉
      (runLoop (initState true true 60000 10000)
        ((⟨1000, true, 0⟩ : Tick) ::
          ([(⟨100000, true, 0⟩ : Tick)]
            ++ [(⟨120000, false, 0⟩ : Tick), (⟨140000, false, 0⟩ : Tick)]))).2 :=
  C6_no_recognition_below_min 60000 10000 1000 0 true
    [⟨100000, true, 0⟩] [⟨120000, false, 0⟩, ⟨140000, false, 0⟩]
    (by decide) (by decide) (by decide)

/-- C5: once a cold shot triggers (by elapsed alert trigger or by the force
flag) at tick time `T`, the actuator receives exactly one disable command,
then — across intermediate ticks with arbitrary tap readings while the
configured cold-shot duration has not yet elapsed — exactly one re-enable
command at the first tick past `coldshot_duration_ms`, for any tap reading
at that tick too; afterwards the intervention flag is clear. -/
theorem C5_coldshot_cycle (s : ShowerState) (T q w wq : Nat) (tapq : Bool)
    (mids : List Tick)
    (h1 : s.shower_timer_ = true) (h2 : s.doing_cold_shot_ = false)
    (h3 : s.shower_state_ = true) (h4 : s.timer_start_ ≠ 0)
    (h5 : (s.shower_alert_ = true ∧
           s.shower_alert_trigger_ < sub32 T s.timer_start_) ∨
          s.force_coldshot = true)
    (hm : ∀ t ∈ mids, ¬ s.shower_alert_coldshot_ < sub32 t.time T)
    (hq : s.shower_alert_coldshot_ < sub32 q T) :
    (runLoop s (⟨T, true, w⟩ :: (mids ++ [⟨q, tapq, wq⟩]))).2 =
      [Event.actuator false, Event.actuator true] ∧
    (runLoop s (⟨T, true, w⟩ :: (mids ++ [⟨q, tapq, wq⟩]))).1.doing_cold_shot_
      = false := by
  have step0 := loop_trigger_coldshot s T w h1 h2 h3 h4 h5
  have hmid : runLoop
      { s with
        doing_cold_shot_ := true
        force_coldshot := false
        alert_timer_start_ := T } mids =
      ({ s with
         doing_cold_shot_ := true
         force_coldshot := false
         alert_timer_start_ := T }, []) :=
    runLoop_coldshot_hold
      { s with
        doing_cold_shot_ := true
        force_coldshot := false
        alert_timer_start_ := T } h1 rfl mids hm
  have hstop := loop_coldshot_stop
    { s with
      doing_cold_shot_ := true
      force_coldshot := false
      alert_timer_start_ := T } tapq q wq h1 rfl hq
  constructor <;>
    (simp only [runLoop, step0]
     rw [runLoop_append, hmid]
     simp only [runLoop, hstop]
     try simp)

/-- Witness for C5: alert-triggered cold shot at T = 700000 on a recognized
session started at 1000 with trigger 600000 and cold-shot duration 10000;
two intermediate ticks (one with the tap reading active, one inactive), and
the closing tick at 711000 with the tap reading inactive. -/
theorem C5_coldshot_cycle_witness :
    (runLoop
      { shower_timer_ := true, shower_alert_ := true,
        shower_alert_trigger_ := 600000, shower_alert_coldshot_ := 10000,
        timer_start_ := 1000, timer_pause_ := 0, alert_timer_start_ := 0,
        duration_ := 0, shower_state_ := true, doing_cold_shot_ := false,
        force_coldshot := false, old_shower_state_ := true }
      ((⟨700000, true, 0⟩ : Tick) ::
        ([(⟨703000, true, 0⟩ : Tick), (⟨706000, false, 0⟩ : Tick)]
          ++ [(⟨711000, false, 0⟩ : Tick)]))).2 =
      [Event.actuator false, Event.actuator true] ∧
    (runLoop
      { shower_timer_ := true, shower_alert_ := true,
        shower_alert_trigger_ := 600000, shower_alert_coldshot_ := 10000,
        timer_start_ := 1000, timer_pause_ := 0, alert_timer_start_ := 0,
        duration_ := 0, shower_state_ := true, doing_cold_shot_ := false,
        force_coldshot := false, old_shower_state_ := true }
      ((⟨700000, true, 0⟩ : Tick) ::
        ([(⟨703000, true, 0⟩ : Tick), (⟨706000, false, 0⟩ : Tick)]
          ++ [(⟨711000, false, 0⟩ : Tick)]))).1.doing_cold_shot_ = false :=
  C5_coldshot_cycle _ 700000 711000 0 0 false
    [⟨703000, true, 0⟩, ⟨706000, false, 0⟩]
    rfl rfl rfl (by decide) (by decide) (by decide) (by decide)

/-- C10: when a cold shot ends, the session stays recognized and the session
start time is kept, so with the alert enabled and the trigger threshold
still exceeded, the very next active tick starts a new intervention: the
actuator re-enable command is immediately followed by a fresh disable
command and the intervention flag is set again. -/
theorem C10_coldshot_repeats (s : ShowerState) (q qq w ww : Nat) (b : Bool)
    (h1 : s.shower_timer_ = true) (h2 : s.doing_cold_shot_ = true)
    (h3 : s.shower_state_ = true) (h4 : s.timer_start_ ≠ 0)
    (h5 : s.shower_alert_ = true)
    (hq : s.shower_alert_coldshot_ < sub32 q s.alert_timer_start_)
    (hqq : s.shower_alert_trigger_ < sub32 qq s.timer_start_) :
    (runLoop s [⟨q, b, w⟩, ⟨qq, true, ww⟩]).2 =
      [Event.actuator true, Event.actuator false] ∧
    (runLoop s [⟨q, b, w⟩, ⟨qq, true, ww⟩]).1.doing_cold_shot_ = true ∧
    (runLoop s [⟨q, b, w⟩, ⟨qq, true, ww⟩]).1.shower_state_ = true ∧
    (runLoop s [⟨q, b, w⟩, ⟨qq, true, ww⟩]).1.timer_start_ = s.timer_start_ := by
  have hstop := loop_coldshot_stop s b q w h1 h2 hq
  have htrig := loop_trigger_coldshot
    { s with doing_cold_shot_ := false, force_coldshot := false } qq ww
    h1 rfl h3 h4 (Or.inl ⟨h5, hqq⟩)
  refine ⟨?_, ?_, ?_, ?_⟩ <;>
    (simp only [runLoop, hstop, htrig]
     try simp [h3])

/-- Witness for C10: cold shot started at 700000 with duration 10000 ends at
tick 711000; the next active tick 712000 still exceeds the 600000 trigger
measured from session start 1000, so a new cold shot begins at once. -/
theorem C10_coldshot_repeats_witness :
    (runLoop
      { shower_timer_ := true, shower_alert_ := true,
        shower_alert_trigger_ := 600000, shower_alert_coldshot_ := 10000,
        timer_start_ := 1000, timer_pause_ := 0, alert_timer_start_ := 700000,
        duration_ := 0, shower_state_ := true, doing_cold_shot_ := true,
        force_coldshot := false, old_shower_state_ := true }
      [⟨711000, false, 0⟩, ⟨712000, true, 0⟩]).2 =
      [Event.actuator true, Event.actuator false] ∧
    (runLoop
      { shower_timer_ := true, shower_alert_ := true,
        shower_alert_trigger_ := 600000, shower_alert_coldshot_ := 10000,
        timer_start_ := 1000, timer_pause_ := 0, alert_timer_start_ := 700000,
        duration_ := 0, shower_state_ := true, doing_cold_shot_ := true,
        force_coldshot := false, old_shower_state_ := true }
      [⟨711000, false, 0⟩, ⟨712000, true, 0⟩]).1.doing_cold_shot_ = true ∧
    (runLoop
      { shower_timer_ := true, shower_alert_ := true,
        shower_alert_trigger_ := 600000, shower_alert_coldshot_ := 10000,
        timer_start_ := 1000, timer_pause_ := 0, alert_timer_start_ := 700000,
        duration_ := 0, shower_state_ := true, doing_cold_shot_ := true,
        force_coldshot := false, old_shower_state_ := true }
      [⟨711000, false, 0⟩, ⟨712000, true, 0⟩]).1.shower_state_ = true ∧
    (runLoop
      { shower_timer_ := true, shower_alert_ := true,
        shower_alert_trigger_ := 600000, shower_alert_coldshot_ := 10000,
        timer_start_ := 1000, timer_pause_ := 0, alert_timer_start_ := 700000,
        duration_ := 0, shower_state_ := true, doing_cold_shot_ := true,
        force_coldshot := false, old_shower_state_ := true }
      [⟨711000, false, 0⟩, ⟨712000, true, 0⟩]).1.timer_start_ = 1000 :=
  C10_coldshot_repeats _ 711000 712000 0 0 false
    rfl rfl rfl (by decide) rfl (by decide) (by decide)
